import Mathlib

/-!
Verification of the `tracelog` logging package (files `tracelog.go` and
`logcalls.go`) against its natural-language specification.

The Go code is shallowly embedded: the destination-router (`turnOnLogging`),
the singleton logger state, the retention sweeper (`LogDirectoryCleanup`),
the alert forwarder (`SendEmailException` with its deferred `CatchPanic`),
and the per-severity logging calls are translated into executable Lean
definitions.  Machine integers are modelled as `Nat`/`Int` (the level mask
only ever undergoes bitwise tests on the four low bits), Go `error` values
as `Option String`, Go panics as an explicit `PanicOr` result, and the
side effects of each logging call as an explicit event trace.
-/

namespace Tracelog

/-- Logging level bits, from `tracelog.go`: `LEVEL_TRACE int32 = 1`,
`LEVEL_INFO = 2`, `LEVEL_WARN = 4`, `LEVEL_ERROR = 8`. -/
def LEVEL_TRACE : Nat := 1

/-- Level bit for Info. -/
def LEVEL_INFO : Nat := 2

/-- Level bit for Warning. -/
def LEVEL_WARN : Nat := 4

/-- Level bit for Error. -/
def LEVEL_ERROR : Nat := 8

/-- An `io.Writer` as used by `turnOnLogging`: `ioutil.Discard`, `os.Stdout`,
`os.Stderr`, or `io.MultiWriter(fileHandle, w)`.  `α` is the type of the
attached file handle. -/
inductive Writer (α : Type) where
  | discard
  | stdout
  | stderr
  | multi (fileHandle : α) (w : Writer α)

/-- The four destination handles built up inside `turnOnLogging`
(`traceHandle`, `infoHandle`, `warnHandle`, `errorHandle`). -/
structure Handles (α : Type) where
  traceHandle : Writer α
  infoHandle : Writer α
  warnHandle : Writer α
  errorHandle : Writer α

/-- `emailConfiguration` struct from `tracelog.go` (the derived `Auth` and
parsed `Template` fields carry no independent information and are left
implicit). -/
structure emailConfiguration where
  Host : String
  Port : Int
  UserName : String
  Password : String
  To : List String

/-- The `traceLog` singleton struct from `tracelog.go`: level, optional
email configuration, the four severity destinations, and the optional
open log file handle (`LogFile`). -/
structure traceLog (α : Type) where
  LogLevel : Nat
  EmailConfiguration : Option emailConfiguration
  Trace : Writer α
  Info : Writer α
  Warning : Writer α
  Error : Writer α
  LogFile : Option α

/-- `turnOnLogging(logLevel, fileHandle)` from `tracelog.go` lines 222-276.
All four handles start at `ioutil.Discard`; four sequential `if` blocks on
the mask bits assign console streams; if a file handle is supplied, each
handle currently equal to `os.Stdout` (or `os.Stderr` for the error handle)
is replaced by `io.MultiWriter(fileHandle, handle)`.  Finally the package
singleton is replaced wholesale by a struct literal that sets only the four
destinations (so `EmailConfiguration` and `LogFile` are zeroed), and the
log level is stored. -/
def turnOnLogging (logLevel : Nat) (fileHandle : Option α) : traceLog α :=
  let h0 : Handles α := ⟨.discard, .discard, .discard, .discard⟩
  let h1 := if logLevel &&& LEVEL_TRACE ≠ 0 then
      { h0 with traceHandle := .stdout, infoHandle := .stdout,
                warnHandle := .stdout, errorHandle := .stderr }
    else h0
  let h2 := if logLevel &&& LEVEL_INFO ≠ 0 then
      { h1 with infoHandle := .stdout, warnHandle := .stdout, errorHandle := .stderr }
    else h1
  let h3 := if logLevel &&& LEVEL_WARN ≠ 0 then
      { h2 with warnHandle := .stdout, errorHandle := .stderr }
    else h2
  let h4 := if logLevel &&& LEVEL_ERROR ≠ 0 then
      { h3 with errorHandle := .stderr }
    else h3
  let h5 := match fileHandle with
    | none => h4
    | some f =>
      { traceHandle := match h4.traceHandle with
          | .stdout => .multi f .stdout
          | w => w
        infoHandle := match h4.infoHandle with
          | .stdout => .multi f .stdout
          | w => w
        warnHandle := match h4.warnHandle with
          | .stdout => .multi f .stdout
          | w => w
        errorHandle := match h4.errorHandle with
          | .stderr => .multi f .stderr
          | w => w }
  { LogLevel := logLevel
    EmailConfiguration := none
    Trace := h5.traceHandle
    Info := h5.infoHandle
    Warning := h5.warnHandle
    Error := h5.errorHandle
    LogFile := none }

/-- `Start(logLevel)`: console-only initialization (`turnOnLogging(logLevel, nil)`). -/
def Start (α : Type) (logLevel : Nat) : traceLog α :=
  turnOnLogging logLevel (none : Option α)

/-- `StartFile(logLevel, baseFilePath, daysToKeep)`: opens the dated log
file `logf` and calls `turnOnLogging(logLevel, logf)`.  Note that the
resulting logger state never records `logf` in its `LogFile` field: no
assignment to `logger.LogFile` exists anywhere in the source. -/
def StartFile (logLevel : Nat) (logf : α) : traceLog α :=
  turnOnLogging logLevel (some logf)

/-- `Stop()` from `tracelog.go` lines 156-167: if `logger.LogFile != nil`
it closes the file and returns the close error, otherwise it returns nil.
`closeResult` is the error the operating system would report for the
`Close` call; the `Bool` records whether `Close` was invoked at all. -/
def Stop (st : traceLog α) (closeResult : Option String) : Option String × Bool :=
  match st.LogFile with
  | some _ => (closeResult, true)
  | none => (none, false)

/-- `ConfigureEmail(host, port, userName, password, to)`: installs an
`emailConfiguration` into the singleton, leaving every other field alone. -/
def ConfigureEmail (st : traceLog α) (host : String) (port : Int)
    (userName password : String) (recipients : List String) : traceLog α :=
  let cfg : emailConfiguration :=
    { Host := host, Port := port, UserName := userName,
      Password := password, To := recipients }
  { st with EmailConfiguration := some cfg }

/-- Modelled from the spec: the cascading resolution rule of spec section 4.1
("If TRACE bit set: trace→stdout, info→stdout, warn→stdout, error→stderr.
Else if INFO bit set: ... Else if WARN bit set: ... Else if ERROR bit set:
error→stderr.  Any severity not assigned a stream by the above remains a
discard sink").  Used only to compare against `turnOnLogging`. -/
def specResolveConsole (logLevel : Nat) : Handles Unit :=
  if logLevel &&& LEVEL_TRACE ≠ 0 then ⟨.stdout, .stdout, .stdout, .stderr⟩
  else if logLevel &&& LEVEL_INFO ≠ 0 then ⟨.discard, .stdout, .stdout, .stderr⟩
  else if logLevel &&& LEVEL_WARN ≠ 0 then ⟨.discard, .discard, .stdout, .stderr⟩
  else if logLevel &&& LEVEL_ERROR ≠ 0 then ⟨.discard, .discard, .discard, .stderr⟩
  else ⟨.discard, .discard, .discard, .discard⟩

/-- Does a resolved sink write to the attached file (is it a
`io.MultiWriter` fan-out)? -/
def includesFile : Writer α → Bool
  | .multi _ _ => true
  | _ => false

/-- Is a resolved sink an active console stream (stdout or stderr)? -/
def isActiveConsole : Writer α → Bool
  | .stdout => true
  | .stderr => true
  | _ => false

/-- C1: for every level mask L, the sinks resolved by `turnOnLogging(L, nil)`
for the four severities equal the sinks prescribed by the cascading rule of
spec section 4.1; in particular the WARN-only mask yields trace/info
discarded and warn/error active. -/
theorem turnOnLogging_matches_cascade (L : Nat) :
    ((turnOnLogging L (none : Option Unit)).Trace = (specResolveConsole L).traceHandle
    ∧ (turnOnLogging L (none : Option Unit)).Info = (specResolveConsole L).infoHandle
    ∧ (turnOnLogging L (none : Option Unit)).Warning = (specResolveConsole L).warnHandle
    ∧ (turnOnLogging L (none : Option Unit)).Error = (specResolveConsole L).errorHandle)
    ∧ ((turnOnLogging LEVEL_WARN (none : Option Unit)).Trace = Writer.discard
    ∧ (turnOnLogging LEVEL_WARN (none : Option Unit)).Info = Writer.discard
    ∧ (turnOnLogging LEVEL_WARN (none : Option Unit)).Warning = Writer.stdout
    ∧ (turnOnLogging LEVEL_WARN (none : Option Unit)).Error = Writer.stderr) := by
  constructor
  · by_cases h1 : L &&& LEVEL_TRACE ≠ 0 <;>
      by_cases h2 : L &&& LEVEL_INFO ≠ 0 <;>
      by_cases h3 : L &&& LEVEL_WARN ≠ 0 <;>
      by_cases h4 : L &&& LEVEL_ERROR ≠ 0 <;>
      simp [turnOnLogging, specResolveConsole, h1, h2, h3, h4]
  · refine ⟨rfl, rfl, rfl, rfl⟩

/-- C2: for every level mask L and every non-nil file handle f, a severity's
resolved sink under `turnOnLogging(L, f)` includes the file if and only if
that severity's console sink under `turnOnLogging(L, nil)` is active
(stdout/stderr); discarded severities are never upgraded to file-only
logging. -/
theorem file_fanout_iff_console_active {α : Type} (L : Nat) (f : α) :
    includesFile (turnOnLogging L (some f)).Trace
      = isActiveConsole (turnOnLogging L (none : Option α)).Trace
    ∧ includesFile (turnOnLogging L (some f)).Info
      = isActiveConsole (turnOnLogging L (none : Option α)).Info
    ∧ includesFile (turnOnLogging L (some f)).Warning
      = isActiveConsole (turnOnLogging L (none : Option α)).Warning
    ∧ includesFile (turnOnLogging L (some f)).Error
      = isActiveConsole (turnOnLogging L (none : Option α)).Error := by
  by_cases h1 : L &&& LEVEL_TRACE ≠ 0 <;>
    by_cases h2 : L &&& LEVEL_INFO ≠ 0 <;>
    by_cases h3 : L &&& LEVEL_WARN ≠ 0 <;>
    by_cases h4 : L &&& LEVEL_ERROR ≠ 0 <;>
    simp [turnOnLogging, includesFile, isActiveConsole, h1, h2, h3, h4]

/-- `systemAlertSubject` constant from `tracelog.go`. -/
def systemAlertSubject : String := "TraceLog Exception"

/-- The alert message composed by `CatchPanic`:
`fmt.Sprintf("%s : PANIC Defered [%s] : Stack Trace : %s", functionName, r, string(buf))`,
where `v` renders the recovered panic value and `stack` the captured stack
buffer. -/
def CatchPanicAlertMessage (functionName v stack : String) : String :=
  functionName ++ " : PANIC Defered [" ++ v ++ "] : Stack Trace : " ++ stack

/-- `strings.Split(s, "-")` for the one-character separator `-`, on the
character list of the string. -/
def splitDashAux : List Char → List Char → List (List Char)
  | [], acc => [acc.reverse]
  | '-' :: rest, acc => acc.reverse :: splitDashAux rest []
  | c :: rest, acc => splitDashAux rest (c :: acc)

/-- `strings.Split(name, "-")` as used by `LogDirectoryCleanup`. -/
def splitDash (s : String) : List String :=
  (splitDashAux s.data []).map (fun cs => String.mk cs)

/-- `strconv.Atoi`: optional sign followed by one or more ASCII digits;
the value must fit in a 64-bit `int` (overflow is an error and hence a
parse failure). -/
def Atoi (s : String) : Option Int :=
  let signDigits : Int × List Char :=
    match s.data with
    | '+' :: rest => (1, rest)
    | '-' :: rest => (-1, rest)
    | rest => (1, rest)
  let ds := signDigits.2
  if ds = [] then none
  else if ds.all Char.isDigit then
    let n : Int := signDigits.1 *
      (ds.foldl (fun acc c => 10 * acc + ((c.toNat - '0'.toNat : Nat) : Int)) 0)
    if n < -(2 ^ 63) ∨ 2 ^ 63 - 1 < n then none else some n
  else none

/-- Day number of the first of the (normalized) month `(y, m)` in the
proleptic Gregorian calendar, counted from the Unix epoch.  The month is
first normalized into the year exactly as Go's `time.Date` does
(floor-divide `m - 1` by 12); the in-range month is then converted with
the standard civil-from-days algorithm. -/
def civilDaysMonthStart (y m : Int) : Int :=
  let m0 := m - 1
  let yn := y + Int.fdiv m0 12
  let mn := Int.emod m0 12 + 1
  let yAdj := if mn ≤ 2 then yn - 1 else yn
  let era := Int.fdiv yAdj 400
  let yoe := yAdj - era * 400
  let doy := Int.ediv (153 * (if 2 < mn then mn - 3 else mn + 9) + 2) 5
  let doe := yoe * 365 + Int.ediv yoe 4 - Int.ediv yoe 100 + doy
  era * 146097 + doe - 719468

/-- The day number of `time.Date(y, m, d, 0, 0, 0, 0, time.UTC)`.  Go
normalizes an out-of-range day value linearly (the date is the first of
the normalized month plus `d - 1` days), which this definition mirrors.
Both `compareDate` and `directoryDate` in `LogDirectoryCleanup` are UTC
midnights, so
`int(compareDate.Sub(directoryDate).Hours() / 24)` is exactly the
difference of the two day numbers (and the deletion decision
`daysOld >= 0` agrees with the sign of this difference even where Go's
`Duration` would saturate). -/
def goDateToDays (y m d : Int) : Int :=
  civilDaysMonthStart y m + (d - 1)

/-- A directory entry returned by `ioutil.ReadDir`. -/
structure Entry where
  isDir : Bool
  name : String

/-- What `LogDirectoryCleanup`'s loop body does with one entry. -/
inductive EntryAction where
  | skipped
  | parseError
  | removed
  | kept
  | panicked (msg : String)
deriving DecidableEq

/-- The Go runtime panic message for an out-of-range slice index. -/
def indexMsg (i len : Nat) : String :=
  "runtime error: index out of range [" ++ toString i ++ "] with length " ++ toString len

/-- One iteration of the loop in `LogDirectoryCleanup` (lines 297-345):
skip non-directories; split the name on `-`; `Atoi(parts[0])`, on error
log and continue; index `parts[1]` (panicking when fewer than two parts),
`Atoi`, on error continue; index `parts[2]` (panicking when fewer than
three parts), `Atoi`, on error continue; build the directory date and
remove the directory when `daysOld >= 0`. -/
def processEntry (compareDays : Int) (e : Entry) : EntryAction :=
  if e.isDir = false then .skipped
  else
    let parts := splitDash e.name
    match Atoi (parts.getD 0 "") with
    | none => .parseError
    | some year =>
      if parts.length < 2 then .panicked (indexMsg 1 parts.length)
      else
        match Atoi (parts.getD 1 "") with
        | none => .parseError
        | some month =>
          if parts.length < 3 then .panicked (indexMsg 2 parts.length)
          else
            match Atoi (parts.getD 2 "") with
            | none => .parseError
            | some day =>
              let daysOld := compareDays - goDateToDays year month day
              if 0 ≤ daysOld then .removed else .kept

/-- The sweep over the listed entries.  A panic in the loop body unwinds
out of the loop, so processing stops at the panicking entry. -/
def sweepLoop (compareDays : Int) : List Entry → List (String × EntryAction)
  | [] => []
  | e :: rest =>
    match processEntry compareDays e with
    | .panicked msg => [(e.name, .panicked msg)]
    | a => (e.name, a) :: sweepLoop compareDays rest

/-- The panic message carried out of the sweep, if any. -/
def sweepPanic : List (String × EntryAction) → Option String
  | [] => none
  | (_, .panicked m) :: _ => some m
  | _ :: rest => sweepPanic rest

/-- Result of `LogDirectoryCleanup`: the per-entry outcomes, and the
secondary alert attempted by the deferred `CatchPanic(nil, ...)` when a
panic unwound out of the loop (its error slot is nil, so no error is
surfaced either way). -/
structure CleanupResult where
  actions : List (String × EntryAction)
  secondaryAlert : Option (String × String)
deriving DecidableEq

/-- `LogDirectoryCleanup(baseFilePath, daysToKeep)` (lines 279-352) for a
process date `(ty, tm, td)` (UTC): `compareDate` is
`time.Date(ty, tm, td - daysToKeep, 0, 0, 0, 0, time.UTC)`; each listed
entry is processed in order; a panic is recovered by the deferred
`CatchPanic`, which sends the secondary alert and ends the sweep.
`stack` stands for the captured `runtime.Stack` text. -/
def LogDirectoryCleanup (ty tm td k : Int) (entries : List Entry) (stack : String) :
    CleanupResult :=
  let compareDays := goDateToDays ty tm (td - k)
  let acts := sweepLoop compareDays entries
  match sweepPanic acts with
  | some m =>
    ⟨acts, some (systemAlertSubject, CatchPanicAlertMessage "LogDirectoryCleanup" m stack)⟩
  | none => ⟨acts, none⟩

/-- Subtracting from the day field before normalization is the same as
subtracting days from the normalized date. -/
theorem goDateToDays_day_sub (y m d k : Int) :
    goDateToDays y m (d - k) = goDateToDays y m d - k := by
  simp [goDateToDays]
  ring

/-- C3: for every base date, every daysToKeep and every directory whose
name parses as `YYYY-MM-DD`, the sweep deletes the directory if and only if
`daysOld` — today's UTC midnight minus `daysToKeep` days, minus the
directory's date, in whole days — is nonnegative; this holds both for the
loop body and for a full `LogDirectoryCleanup` run over that directory. -/
theorem cleanup_deletes_iff_daysOld_nonneg
    (ty tm td k : Int) (e : Entry) (s1 s2 s3 : String) (y m d : Int) (stack : String)
    (hdir : e.isDir = true)
    (hsplit : splitDash e.name = [s1, s2, s3])
    (hy : Atoi s1 = some y) (hm : Atoi s2 = some m) (hd3 : Atoi s3 = some d) :
    processEntry (goDateToDays ty tm (td - k)) e
      = (if 0 ≤ goDateToDays ty tm td - k - goDateToDays y m d
         then EntryAction.removed else EntryAction.kept)
    ∧ LogDirectoryCleanup ty tm td k [e] stack
      = ⟨[(e.name,
           if 0 ≤ goDateToDays ty tm td - k - goDateToDays y m d
           then EntryAction.removed else EntryAction.kept)], none⟩ := by
  have hp : processEntry (goDateToDays ty tm (td - k)) e
      = (if 0 ≤ goDateToDays ty tm td - k - goDateToDays y m d
         then EntryAction.removed else EntryAction.kept) := by
    rw [goDateToDays_day_sub]
    simp [processEntry, hdir, hsplit, hy, hm, hd3]
  refine ⟨hp, ?_⟩
  by_cases hc : 0 ≤ goDateToDays ty tm td - k - goDateToDays y m d
  · simp [LogDirectoryCleanup, sweepLoop, sweepPanic, hp, hc]
  · simp [LogDirectoryCleanup, sweepLoop, sweepPanic, hp, hc]

/-- Witness for C3, the boundary example of the spec: with daysToKeep = 5
and today = 2024-06-10, the directory `2024-06-05` (daysOld = 0) is removed
and `2024-06-06` is kept. -/
theorem cleanup_retention_boundary_example :
    processEntry (goDateToDays 2024 6 (10 - 5)) ⟨true, "2024-06-05"⟩ = EntryAction.removed
    ∧ processEntry (goDateToDays 2024 6 (10 - 5)) ⟨true, "2024-06-06"⟩ = EntryAction.kept := by
  constructor
  · have h := (cleanup_deletes_iff_daysOld_nonneg 2024 6 10 5 ⟨true, "2024-06-05"⟩
      "2024" "06" "05" 2024 6 5 "stk" rfl rfl rfl rfl rfl).1
    rw [h]
    decide
  · have h := (cleanup_deletes_iff_daysOld_nonneg 2024 6 10 5 ⟨true, "2024-06-06"⟩
      "2024" "06" "06" 2024 6 6 "stk" rfl rfl rfl rfl rfl).1
    rw [h]
    decide

/-- C4 (evaluating the code at the failing input): an all-numeric directory
name with fewer than three `-`-separated parts, such as `"2024"`, makes the
loop panic on `parts[1]`; the panic is recovered at the function boundary,
so the sibling `2024-06-01` — which a sweep reaching it would remove — is
never examined.  A non-numeric malformed name such as `"notadate"` is, by
contrast, logged and skipped, and its siblings are processed. -/
theorem sweep_aborts_on_short_numeric_name :
    LogDirectoryCleanup 2024 6 10 5 [⟨true, "2024"⟩, ⟨true, "2024-06-01"⟩] "stk"
      = ⟨[("2024", EntryAction.panicked (indexMsg 1 1))],
         some (systemAlertSubject,
               CatchPanicAlertMessage "LogDirectoryCleanup" (indexMsg 1 1) "stk")⟩
    ∧ LogDirectoryCleanup 2024 6 10 5 [⟨true, "2024-06-01"⟩] "stk"
      = ⟨[("2024-06-01", EntryAction.removed)], none⟩
    ∧ LogDirectoryCleanup 2024 6 10 5 [⟨true, "notadate"⟩, ⟨true, "2024-06-01"⟩] "stk"
      = ⟨[("notadate", EntryAction.parseError), ("2024-06-01", EntryAction.removed)], none⟩ := by
  refine ⟨?_, ?_, ?_⟩ <;> decide

/-- Result of running a piece of Go code that may panic: either a normal
return value or a panic carrying (the rendering of) the panic value. -/
inductive PanicOr (α : Type) where
  | ret (a : α)
  | panicked (v : String)
deriving DecidableEq

/-- Environment oracle for one `SendEmailException` run: whether
`Template.Execute` panics, and what `smtp.SendMail` does (returns an
optional error, or panics). -/
structure SendOracle where
  templatePanic : Option String
  smtpResult : PanicOr (Option String)

/-- Observable effects of the alert path. -/
inductive MailEffect where
  | render (body : String)
  | smtpSend (addr sender : String) (recipients : List String) (body : String)
  | secondaryAlert (subject message : String)
deriving DecidableEq

/-- `strings.Join(to, ",")`. -/
def joinComma : List String → String
  | [] => ""
  | [x] => x
  | x :: xs => x ++ "," ++ joinComma xs

/-- The `EmailScript` template of `tracelog.go` rendered with the
parameters `{From, To, Subject, Message}` (the result of
`Template.Execute` on the parsed template). -/
def renderEmail (Sender Recipients Subject Message : String) : String :=
  "From: " ++ Sender ++ "\nTo: " ++ Recipients ++ "\nSubject: " ++ Subject ++
  "\nMIME-version: 1.0\nContent-Type: text/html; charset=\"UTF-8\"\n\n<html><body>" ++
  Message ++ "</body></html>"

/-- `fmt.Sprintf("%s:%d", cfg.Host, cfg.Port)`. -/
def emailAddr (cfg : emailConfiguration) : String :=
  cfg.Host ++ ":" ++ toString cfg.Port

/-- The body of `SendEmailException` (lines 183-214), before the deferred
`CatchPanic` is taken into account: with no email configuration it returns
the nil error immediately, with no rendering and no send; otherwise it
renders the template (which may panic) and calls `smtp.SendMail` (which may
return an error or panic), returning the send error.  `message` stands for
the already-formatted `fmt.Sprintf(message, a...)`. -/
def sendEmailExceptionBody (st : traceLog α) (subject message : String)
    (oracle : SendOracle) : PanicOr (Option String) × List MailEffect :=
  match st.EmailConfiguration with
  | none => (.ret none, [])
  | some cfg =>
    match oracle.templatePanic with
    | some v => (.panicked v, [])
    | none =>
      let body := renderEmail cfg.UserName (joinComma cfg.To) subject message
      match oracle.smtpResult with
      | .panicked v => (.panicked v, [.render body])
      | .ret e => (.ret e, [.render body, .smtpSend (emailAddr cfg) cfg.UserName cfg.To body])

/-- The deferred `CatchPanic(err, functionName)` (lines 355-366) wrapped
around a function body: a normal return passes through; a recovered panic
produces a secondary `SendEmailException(systemAlertSubject, ...)` attempt
carrying the captured stack text, writes `fmt.Errorf("%v", r)` into the
caller-supplied error slot when one was supplied, and the function then
returns normally — the result of the wrapped call is always a plain value,
never a propagating panic. -/
def runWithCatchPanic (functionName stack : String) (hasErrSlot : Bool)
    (body : PanicOr (Option String) × List MailEffect) :
    Option String × List MailEffect :=
  match body with
  | (.ret e, effs) => (e, effs)
  | (.panicked v, effs) =>
    (if hasErrSlot then some v else none,
     effs ++ [.secondaryAlert systemAlertSubject
                (CatchPanicAlertMessage functionName v stack)])

/-- `SendEmailException(subject, message, a...)`: its body guarded by the
deferred `CatchPanic(&err, "SendEmailException")`. -/
def SendEmailException (st : traceLog α) (subject message : String)
    (oracle : SendOracle) (stack : String) : Option String × List MailEffect :=
  runWithCatchPanic "SendEmailException" stack true
    (sendEmailExceptionBody st subject message oracle)

/-- C6: if no email configuration has been set, `SendEmailException`
returns a nil error immediately, with no template rendering and no mail
send attempt. -/
theorem sendEmailException_noop_without_config {α : Type} (st : traceLog α)
    (subject message stack : String) (oracle : SendOracle)
    (h : st.EmailConfiguration = none) :
    SendEmailException st subject message oracle stack = (none, []) := by
  simp [SendEmailException, sendEmailExceptionBody, runWithCatchPanic, h]

/-- Witness for C6 at a concrete state: a freshly started logger has no
email configuration, and the alert send is a silent no-op success. -/
theorem sendEmailException_noop_without_config_spot :
    (turnOnLogging 1 (none : Option Unit)).EmailConfiguration = none
    ∧ SendEmailException (turnOnLogging 1 (none : Option Unit)) "subj" "msg"
        ⟨none, .ret none⟩ "stk" = (none, []) :=
  ⟨rfl, sendEmailException_noop_without_config _ "subj" "msg" "stk" ⟨none, .ret none⟩ rfl⟩

/-- C7: a panic in the alert path is recovered by the deferred `CatchPanic`
at that boundary.  For a panic during template rendering and for a panic
during the send, `SendEmailException` returns normally with the panic value
as its error (the caller-supplied slot `&err`) and a secondary alert
carrying the captured stack text is attempted; for a panic inside
`LogDirectoryCleanup`'s sweep, the function returns normally (its error
slot is nil) and the same secondary alert is attempted.  In all cases the
result is a plain returned value: the panic does not reach the caller. -/
theorem catchPanic_contains_alert_path_panics
    (st : traceLog Unit) (cfg : emailConfiguration)
    (subject message stack v : String) (smtp : PanicOr (Option String))
    (ty tm td k : Int) (e : Entry) (rest : List Entry) (msg : String)
    (hcfg : st.EmailConfiguration = some cfg)
    (hpanic : processEntry (goDateToDays ty tm (td - k)) e = .panicked msg) :
    SendEmailException st subject message ⟨some v, smtp⟩ stack
      = (some v, [.secondaryAlert systemAlertSubject
                    (CatchPanicAlertMessage "SendEmailException" v stack)])
    ∧ SendEmailException st subject message ⟨none, .panicked v⟩ stack
      = (some v, [.render (renderEmail cfg.UserName (joinComma cfg.To) subject message),
                  .secondaryAlert systemAlertSubject
                    (CatchPanicAlertMessage "SendEmailException" v stack)])
    ∧ LogDirectoryCleanup ty tm td k (e :: rest) stack
      = ⟨[(e.name, .panicked msg)],
         some (systemAlertSubject,
               CatchPanicAlertMessage "LogDirectoryCleanup" msg stack)⟩ := by
  refine ⟨?_, ?_, ?_⟩
  · simp [SendEmailException, sendEmailExceptionBody, runWithCatchPanic, hcfg]
  · simp [SendEmailException, sendEmailExceptionBody, runWithCatchPanic, hcfg]
  · simp [LogDirectoryCleanup, sweepLoop, sweepPanic, hpanic]

/-- Witness for C7 at concrete inputs: a configured logger with a panicking
template render, and a cleanup run over the panicking directory name
`"2024"`. -/
theorem catchPanic_contains_alert_path_panics_spot :
    SendEmailException
        (ConfigureEmail (turnOnLogging 1 (none : Option Unit)) "host" 25 "user" "pw" ["to"])
        "subj" "msg" ⟨some "boom", .ret none⟩ "stk"
      = (some "boom", [.secondaryAlert systemAlertSubject
                         (CatchPanicAlertMessage "SendEmailException" "boom" "stk")])
    ∧ SendEmailException
        (ConfigureEmail (turnOnLogging 1 (none : Option Unit)) "host" 25 "user" "pw" ["to"])
        "subj" "msg" ⟨none, .panicked "boom"⟩ "stk"
      = (some "boom", [.render (renderEmail "user" (joinComma ["to"]) "subj" "msg"),
                       .secondaryAlert systemAlertSubject
                         (CatchPanicAlertMessage "SendEmailException" "boom" "stk")])
    ∧ LogDirectoryCleanup 2024 6 10 5 [⟨true, "2024"⟩] "stk"
      = ⟨[("2024", .panicked (indexMsg 1 1))],
         some (systemAlertSubject,
               CatchPanicAlertMessage "LogDirectoryCleanup" (indexMsg 1 1) "stk")⟩ :=
  catchPanic_contains_alert_path_panics
    (ConfigureEmail (turnOnLogging 1 (none : Option Unit)) "host" 25 "user" "pw" ["to"])
    ⟨"host", 25, "user", "pw", ["to"]⟩
    "subj" "msg" "stk" "boom" (.ret none)
    2024 6 10 5 ⟨true, "2024"⟩ [] (indexMsg 1 1) rfl rfl

/-- C5 (evaluating the code at the failing scenario): no code path ever
assigns `logger.LogFile` — `turnOnLogging` replaces the singleton with a
struct literal in which `LogFile` is nil, and `StartFile` never stores the
file it opened — so `Stop` finds `LogFile == nil` even after `StartFile`,
performs no close, and returns nil; after a console-only `Start` it also
returns nil without a close (the only half of the claim the code meets). -/
theorem stop_never_closes_file {α : Type} (L : Nat) (f : α) (closeErr : Option String) :
    (StartFile L f).LogFile = none
    ∧ Stop (StartFile L f) closeErr = (none, false)
    ∧ Stop (Start α L) closeErr = (none, false) :=
  ⟨rfl, rfl, rfl⟩

/-- C10: `turnOnLogging` (hence every `Start`/`StartFile`) replaces the
whole singleton with a fresh struct: whatever email configuration a prior
`ConfigureEmail` installed, the new state's `EmailConfiguration` is nil and
alert sends are silent no-ops until `ConfigureEmail` is called again, at
which point the configuration is live once more. -/
theorem start_resets_email_configuration {α : Type} (st : traceLog α)
    (host : String) (port : Int) (user pw : String) (recipients : List String)
    (L : Nat) (fh : Option α) (subject message stack : String) (oracle : SendOracle) :
    (ConfigureEmail st host port user pw recipients).EmailConfiguration
      = some ⟨host, port, user, pw, recipients⟩
    ∧ (turnOnLogging L fh).EmailConfiguration = none
    ∧ SendEmailException (turnOnLogging L fh) subject message oracle stack = (none, [])
    ∧ (ConfigureEmail (turnOnLogging L fh) host port user pw recipients).EmailConfiguration
      = some ⟨host, port, user, pw, recipients⟩ := by
  refine ⟨rfl, rfl, ?_, rfl⟩
  simp [SendEmailException, sendEmailExceptionBody, runWithCatchPanic, turnOnLogging]

/-- One observable step of a public logging call: taking or releasing the
global `Serialize` lock, composing a line with `fmt.Sprintf`, writing a
line to the resolved destination with `Output(callDepth, line)`, or handing
a composed alert message to `SendEmailException`. -/
inductive Event where
  | lock
  | unlock
  | compose (line : String)
  | output (callDepth : Nat) (line : String)
  | mailHandoff (subject line : String)

/-- `Started(title, functionName)` from `logcalls.go`: lock, format
`"%s : %s : Started\n"`, write it to the Trace destination, unlock. -/
def Started (title functionName : String) : List Event :=
  let line := title ++ " : " ++ functionName ++ " : " ++ "Started" ++ "\n"
  [.lock, .compose line, .output 2 line, .unlock]

/-- `Startedf`: format `"%s : %s : Started : %s\n"` under the lock.
`msg` stands for the already-formatted `fmt.Sprintf(format, a...)`. -/
def Startedf (title functionName msg : String) : List Event :=
  let line := title ++ " : " ++ functionName ++ " : " ++ "Started" ++ " : " ++ msg ++ "\n"
  [.lock, .compose line, .output 2 line, .unlock]

/-- `Completed`: format `"%s : %s : Completed\n"` under the lock. -/
def Completed (title functionName : String) : List Event :=
  let line := title ++ " : " ++ functionName ++ " : " ++ "Completed" ++ "\n"
  [.lock, .compose line, .output 2 line, .unlock]

/-- `Completedf`: format `"%s : %s : Completed : %s\n"` under the lock. -/
def Completedf (title functionName msg : String) : List Event :=
  let line := title ++ " : " ++ functionName ++ " : " ++ "Completed" ++ " : " ++ msg ++ "\n"
  [.lock, .compose line, .output 2 line, .unlock]

/-- `CompletedError`: format `"%s : %s : Completed : ERROR : %s\n"` with
the error text in the final slot, written to the Error destination. -/
def CompletedError (err title functionName : String) : List Event :=
  let line := title ++ " : " ++ functionName ++ " : " ++ "Completed : ERROR" ++ " : " ++ err ++ "\n"
  [.lock, .compose line, .output 2 line, .unlock]

/-- `CompletedErrorf`: format `"%s : %s : Completed : ERROR : %s : %s\n"`. -/
def CompletedErrorf (err title functionName msg : String) : List Event :=
  let line := title ++ " : " ++ functionName ++ " : " ++ "Completed : ERROR" ++ " : " ++ msg
    ++ " : " ++ err ++ "\n"
  [.lock, .compose line, .output 2 line, .unlock]

/-- `Trace`: format `"%s : %s : Info : %s\n"` to the Trace destination. -/
def Trace (title functionName msg : String) : List Event :=
  let line := title ++ " : " ++ functionName ++ " : " ++ "Info" ++ " : " ++ msg ++ "\n"
  [.lock, .compose line, .output 2 line, .unlock]

/-- `Info`: format `"%s : %s : Info : %s\n"` to the Info destination. -/
def Info (title functionName msg : String) : List Event :=
  let line := title ++ " : " ++ functionName ++ " : " ++ "Info" ++ " : " ++ msg ++ "\n"
  [.lock, .compose line, .output 2 line, .unlock]

/-- `Warning`: format `"%s : %s : Info : %s\n"` to the Warning destination. -/
def Warning (title functionName msg : String) : List Event :=
  let line := title ++ " : " ++ functionName ++ " : " ++ "Info" ++ " : " ++ msg ++ "\n"
  [.lock, .compose line, .output 2 line, .unlock]

/-- `Error`: format `"%s : %s : ERROR : %s\n"` with the error text. -/
def Error (err title functionName : String) : List Event :=
  let line := title ++ " : " ++ functionName ++ " : " ++ "ERROR" ++ " : " ++ err ++ "\n"
  [.lock, .compose line, .output 2 line, .unlock]

/-- `Errorf`: format `"%s : %s : ERROR : %s : %s\n"`. -/
def Errorf (err title functionName msg : String) : List Event :=
  let line := title ++ " : " ++ functionName ++ " : " ++ "ERROR" ++ " : " ++ msg
    ++ " : " ++ err ++ "\n"
  [.lock, .compose line, .output 2 line, .unlock]

/-- `Alert` (logcalls.go lines 101-109): the message is composed BEFORE the
lock is taken, the write happens under the lock, and after the unlock the
message is handed to `SendEmailException`. -/
def Alert (subject title functionName msg : String) : List Event :=
  let line := title ++ " : " ++ functionName ++ " : " ++ "ALERT" ++ " : " ++ msg ++ "\n"
  [.compose line, .lock, .output 2 line, .unlock, .mailHandoff subject line]

/-- `CompletedAlert`: like `Alert` with the `Completed : ALERT` tag. -/
def CompletedAlert (subject title functionName msg : String) : List Event :=
  let line := title ++ " : " ++ functionName ++ " : " ++ "Completed : ALERT" ++ " : " ++ msg ++ "\n"
  [.compose line, .lock, .output 2 line, .unlock, .mailHandoff subject line]

/-- `Startedcd`: `Started` with a caller-supplied call depth. -/
def Startedcd (callDepth : Nat) (title functionName : String) : List Event :=
  let line := title ++ " : " ++ functionName ++ " : " ++ "Started" ++ "\n"
  [.lock, .compose line, .output callDepth line, .unlock]

/-- `Startedfcd`. -/
def Startedfcd (callDepth : Nat) (title functionName msg : String) : List Event :=
  let line := title ++ " : " ++ functionName ++ " : " ++ "Started" ++ " : " ++ msg ++ "\n"
  [.lock, .compose line, .output callDepth line, .unlock]

/-- `Completedcd`. -/
def Completedcd (callDepth : Nat) (title functionName : String) : List Event :=
  let line := title ++ " : " ++ functionName ++ " : " ++ "Completed" ++ "\n"
  [.lock, .compose line, .output callDepth line, .unlock]

/-- `Completedfcd`. -/
def Completedfcd (callDepth : Nat) (title functionName msg : String) : List Event :=
  let line := title ++ " : " ++ functionName ++ " : " ++ "Completed" ++ " : " ++ msg ++ "\n"
  [.lock, .compose line, .output callDepth line, .unlock]

/-- `CompletedErrorcd`. -/
def CompletedErrorcd (callDepth : Nat) (err title functionName : String) : List Event :=
  let line := title ++ " : " ++ functionName ++ " : " ++ "Completed : ERROR" ++ " : " ++ err ++ "\n"
  [.lock, .compose line, .output callDepth line, .unlock]

/-- `CompletedErrorfcd`. -/
def CompletedErrorfcd (callDepth : Nat) (err title functionName msg : String) : List Event :=
  let line := title ++ " : " ++ functionName ++ " : " ++ "Completed : ERROR" ++ " : " ++ msg
    ++ " : " ++ err ++ "\n"
  [.lock, .compose line, .output callDepth line, .unlock]

/-- `Tracecd`. -/
def Tracecd (callDepth : Nat) (title functionName msg : String) : List Event :=
  let line := title ++ " : " ++ functionName ++ " : " ++ "Info" ++ " : " ++ msg ++ "\n"
  [.lock, .compose line, .output callDepth line, .unlock]

/-- `Infocd`. -/
def Infocd (callDepth : Nat) (title functionName msg : String) : List Event :=
  let line := title ++ " : " ++ functionName ++ " : " ++ "Info" ++ " : " ++ msg ++ "\n"
  [.lock, .compose line, .output callDepth line, .unlock]

/-- `Warningcd`. -/
def Warningcd (callDepth : Nat) (title functionName msg : String) : List Event :=
  let line := title ++ " : " ++ functionName ++ " : " ++ "Info" ++ " : " ++ msg ++ "\n"
  [.lock, .compose line, .output callDepth line, .unlock]

/-- `Errorcd`. -/
def Errorcd (callDepth : Nat) (err title functionName : String) : List Event :=
  let line := title ++ " : " ++ functionName ++ " : " ++ "ERROR" ++ " : " ++ err ++ "\n"
  [.lock, .compose line, .output callDepth line, .unlock]

/-- `Errorfcd`. -/
def Errorfcd (callDepth : Nat) (err title functionName msg : String) : List Event :=
  let line := title ++ " : " ++ functionName ++ " : " ++ "ERROR" ++ " : " ++ msg
    ++ " : " ++ err ++ "\n"
  [.lock, .compose line, .output callDepth line, .unlock]

/-- `Alertcd`: like `Alert`, message composed before the lock, mail handoff
after the unlock. -/
def Alertcd (callDepth : Nat) (subject title functionName msg : String) : List Event :=
  let line := title ++ " : " ++ functionName ++ " : " ++ "ALERT" ++ " : " ++ msg ++ "\n"
  [.compose line, .lock, .output callDepth line, .unlock, .mailHandoff subject line]

/-- `CompletedAlertcd`. -/
def CompletedAlertcd (callDepth : Nat) (subject title functionName msg : String) : List Event :=
  let line := title ++ " : " ++ functionName ++ " : " ++ "Completed : ALERT" ++ " : " ++ msg ++ "\n"
  [.compose line, .lock, .output callDepth line, .unlock, .mailHandoff subject line]

/-- The lines a trace writes to its destination sink. -/
def outputLines : List Event → List String
  | [] => []
  | .output _ l :: rest => l :: outputLines rest
  | _ :: rest => outputLines rest

/-- The (single) line a logging call writes. -/
def firstOutput (tr : List Event) : String :=
  (outputLines tr).headD ""

/-- Is the event a sink write? -/
def isOutput : Event → Bool
  | .output _ _ => true
  | _ => false

/-- Is the event a message composition? -/
def isCompose : Event → Bool
  | .compose _ => true
  | _ => false

/-- Is the event the handoff to the mail capability? -/
def isHandoff : Event → Bool
  | .mailHandoff _ _ => true
  | _ => false

/-- Every event selected by `p` happens while the global lock is held
(current lock depth is tracked through the trace). -/
def underLockCheck (p : Event → Bool) : Nat → List Event → Bool
  | _, [] => true
  | depth, ev :: rest =>
    match ev with
    | .lock => underLockCheck p (depth + 1) rest
    | .unlock => underLockCheck p (depth - 1) rest
    | other => (!p other || decide (0 < depth)) && underLockCheck p depth rest

/-- All sink writes in the trace happen under the lock. -/
def writesUnderLock (tr : List Event) : Bool := underLockCheck isOutput 0 tr

/-- All compositions in the trace happen under the lock. -/
def composesUnderLock (tr : List Event) : Bool := underLockCheck isCompose 0 tr

/-- All mail handoffs in the trace happen under the lock. -/
def handoffsUnderLock (tr : List Event) : Bool := underLockCheck isHandoff 0 tr

/-- Lock acquisitions and releases are balanced: no unlock without a
matching lock, and the trace ends with the lock released. -/
def locksBalanced : Nat → List Event → Bool
  | depth, [] => decide (depth = 0)
  | depth, .lock :: rest => locksBalanced (depth + 1) rest
  | depth, .unlock :: rest => decide (0 < depth) && locksBalanced (depth - 1) rest
  | depth, _ :: rest => locksBalanced depth rest

/-- A trace is lock-disciplined when every sink write is under the lock and
lock/unlock are balanced (the lock is always released again). -/
def lockDiscipline (tr : List Event) : Bool :=
  writesUnderLock tr && locksBalanced 0 tr

/-- All twenty-six public logging calls, instantiated at the given
arguments. -/
def allLogTraces (cd : Nat) (subject t f m err : String) : List (List Event) :=
  [Started t f, Startedf t f m, Completed t f, Completedf t f m,
   CompletedError err t f, CompletedErrorf err t f m,
   Trace t f m, Info t f m, Warning t f m, Error err t f, Errorf err t f m,
   Alert subject t f m, CompletedAlert subject t f m,
   Startedcd cd t f, Startedfcd cd t f m, Completedcd cd t f, Completedfcd cd t f m,
   CompletedErrorcd cd err t f, CompletedErrorfcd cd err t f m,
   Tracecd cd t f m, Infocd cd t f m, Warningcd cd t f m,
   Errorcd cd err t f, Errorfcd cd err t f m,
   Alertcd cd subject t f m, CompletedAlertcd cd subject t f m]

/-- The twenty-two logging calls that do not send an alert. -/
def nonAlertLogTraces (cd : Nat) (t f m err : String) : List (List Event) :=
  [Started t f, Startedf t f m, Completed t f, Completedf t f m,
   CompletedError err t f, CompletedErrorf err t f m,
   Trace t f m, Info t f m, Warning t f m, Error err t f, Errorf err t f m,
   Startedcd cd t f, Startedfcd cd t f m, Completedcd cd t f, Completedfcd cd t f m,
   CompletedErrorcd cd err t f, CompletedErrorfcd cd err t f m,
   Tracecd cd t f m, Infocd cd t f m, Warningcd cd t f m,
   Errorcd cd err t f, Errorfcd cd err t f m]

/-- The four alert-sending logging calls. -/
def alertLogTraces (cd : Nat) (subject t f m : String) : List (List Event) :=
  [Alert subject t f m, CompletedAlert subject t f m,
   Alertcd cd subject t f m, CompletedAlertcd cd subject t f m]

/-- The tag vocabulary of the spec's log-line format. -/
def Tags : List String :=
  ["Started", "Completed", "Info", "ERROR", "ALERT", "Completed : ERROR", "Completed : ALERT"]

/-- Modelled from the spec: the log-line format of spec section 6,
`<title> : <function> : <Tag> : <message>[ : <error>]` followed by a
newline, with a mandatory message segment. -/
def matchesSpecTemplate (line : String) : Prop :=
  ∃ t f tag m, tag ∈ Tags ∧
    (line = t ++ " : " ++ f ++ " : " ++ tag ++ " : " ++ m ++ "\n"
     ∨ ∃ e, line = t ++ " : " ++ f ++ " : " ++ tag ++ " : " ++ m ++ " : " ++ e ++ "\n")

/-- The amended log-line format: `<title> : <function> : <Tag>` optionally
followed by ` : <message>` and then optionally ` : <error>`, then a
newline (the message segment is absent for the plain Started/Completed
variants). -/
def matchesAmendedTemplate (line : String) : Prop :=
  ∃ t f tag, tag ∈ Tags ∧
    (line = t ++ " : " ++ f ++ " : " ++ tag ++ "\n"
     ∨ (∃ m, line = t ++ " : " ++ f ++ " : " ++ tag ++ " : " ++ m ++ "\n")
     ∨ (∃ m e, line = t ++ " : " ++ f ++ " : " ++ tag ++ " : " ++ m ++ " : " ++ e ++ "\n"))

/-- Number of colon characters in a string. -/
def colonCount (s : String) : Nat := s.data.count ':'

theorem colonCount_append (s t : String) :
    colonCount (s ++ t) = colonCount s + colonCount t := by
  cases s
  cases t
  simp [colonCount, String.append, List.count_append]

theorem matchesAmended_tagOnly (t f tag : String) (h : tag ∈ Tags) :
    matchesAmendedTemplate (t ++ " : " ++ f ++ " : " ++ tag ++ "\n") :=
  ⟨t, f, tag, h, Or.inl rfl⟩

theorem matchesAmended_msg (t f tag m : String) (h : tag ∈ Tags) :
    matchesAmendedTemplate (t ++ " : " ++ f ++ " : " ++ tag ++ " : " ++ m ++ "\n") :=
  ⟨t, f, tag, h, Or.inr (Or.inl ⟨m, rfl⟩)⟩

theorem matchesAmended_msgErr (t f tag m e : String) (h : tag ∈ Tags) :
    matchesAmendedTemplate (t ++ " : " ++ f ++ " : " ++ tag ++ " : " ++ m ++ " : " ++ e ++ "\n") :=
  ⟨t, f, tag, h, Or.inr (Or.inr ⟨m, e, rfl⟩)⟩

/-- C8 counterexample: the line written by `Started("a", "b")` is
`"a : b : Started\n"`, which has no `: <message>` segment and therefore
does not match the claimed template
`<title> : <function> : <Tag> : <message>[ : <error>]\n` under any
decomposition (any instance of that template contains at least three
colons, the line only two). -/
theorem started_line_lacks_message_segment :
    ¬ matchesSpecTemplate (firstOutput (Started "a" "b")) := by
  intro h
  obtain ⟨t, f, tag, m, -, hc⟩ := h
  have hline : firstOutput (Started "a" "b") = "a : b : Started\n" := rfl
  rw [hline] at hc
  have hsep : colonCount " : " = 1 := rfl
  have hnl : colonCount "\n" = 0 := rfl
  have hl : colonCount "a : b : Started\n" = 2 := rfl
  rcases hc with hc | ⟨e, hc⟩
  · have h2 := congrArg colonCount hc
    simp only [colonCount_append, hsep, hnl, hl] at h2
    omega
  · have h2 := congrArg colonCount hc
    simp only [colonCount_append, hsep, hnl, hl] at h2
    omega

/-- C8 amended: every public logging call writes a line of the form
`<title> : <function> : <Tag>[ : <message>[ : <error>]]` followed by a
newline, with Tag drawn from {Started, Completed, Info, ERROR, ALERT,
"Completed : ERROR", "Completed : ALERT"}; the message segment is absent
for the plain Started/Completed (and call-depth) variants, and the
error-carrying variants put the error text in the final segment.  Trace,
Info and Warning all use the tag "Info". -/
theorem log_lines_match_amended_template (cd : Nat) (subject t f m err : String) :
    matchesAmendedTemplate (firstOutput (Started t f))
    ∧ matchesAmendedTemplate (firstOutput (Startedf t f m))
    ∧ matchesAmendedTemplate (firstOutput (Completed t f))
    ∧ matchesAmendedTemplate (firstOutput (Completedf t f m))
    ∧ matchesAmendedTemplate (firstOutput (CompletedError err t f))
    ∧ matchesAmendedTemplate (firstOutput (CompletedErrorf err t f m))
    ∧ matchesAmendedTemplate (firstOutput (Trace t f m))
    ∧ matchesAmendedTemplate (firstOutput (Info t f m))
    ∧ matchesAmendedTemplate (firstOutput (Warning t f m))
    ∧ matchesAmendedTemplate (firstOutput (Error err t f))
    ∧ matchesAmendedTemplate (firstOutput (Errorf err t f m))
    ∧ matchesAmendedTemplate (firstOutput (Alert subject t f m))
    ∧ matchesAmendedTemplate (firstOutput (CompletedAlert subject t f m))
    ∧ matchesAmendedTemplate (firstOutput (Startedcd cd t f))
    ∧ matchesAmendedTemplate (firstOutput (Startedfcd cd t f m))
    ∧ matchesAmendedTemplate (firstOutput (Completedcd cd t f))
    ∧ matchesAmendedTemplate (firstOutput (Completedfcd cd t f m))
    ∧ matchesAmendedTemplate (firstOutput (CompletedErrorcd cd err t f))
    ∧ matchesAmendedTemplate (firstOutput (CompletedErrorfcd cd err t f m))
    ∧ matchesAmendedTemplate (firstOutput (Tracecd cd t f m))
    ∧ matchesAmendedTemplate (firstOutput (Infocd cd t f m))
    ∧ matchesAmendedTemplate (firstOutput (Warningcd cd t f m))
    ∧ matchesAmendedTemplate (firstOutput (Errorcd cd err t f))
    ∧ matchesAmendedTemplate (firstOutput (Errorfcd cd err t f m))
    ∧ matchesAmendedTemplate (firstOutput (Alertcd cd subject t f m))
    ∧ matchesAmendedTemplate (firstOutput (CompletedAlertcd cd subject t f m)) :=
  ⟨matchesAmended_tagOnly t f "Started" (by decide),
   matchesAmended_msg t f "Started" m (by decide),
   matchesAmended_tagOnly t f "Completed" (by decide),
   matchesAmended_msg t f "Completed" m (by decide),
   matchesAmended_msg t f "Completed : ERROR" err (by decide),
   matchesAmended_msgErr t f "Completed : ERROR" m err (by decide),
   matchesAmended_msg t f "Info" m (by decide),
   matchesAmended_msg t f "Info" m (by decide),
   matchesAmended_msg t f "Info" m (by decide),
   matchesAmended_msg t f "ERROR" err (by decide),
   matchesAmended_msgErr t f "ERROR" m err (by decide),
   matchesAmended_msg t f "ALERT" m (by decide),
   matchesAmended_msg t f "Completed : ALERT" m (by decide),
   matchesAmended_tagOnly t f "Started" (by decide),
   matchesAmended_msg t f "Started" m (by decide),
   matchesAmended_tagOnly t f "Completed" (by decide),
   matchesAmended_msg t f "Completed" m (by decide),
   matchesAmended_msg t f "Completed : ERROR" err (by decide),
   matchesAmended_msgErr t f "Completed : ERROR" m err (by decide),
   matchesAmended_msg t f "Info" m (by decide),
   matchesAmended_msg t f "Info" m (by decide),
   matchesAmended_msg t f "Info" m (by decide),
   matchesAmended_msg t f "ERROR" err (by decide),
   matchesAmended_msgErr t f "ERROR" m err (by decide),
   matchesAmended_msg t f "ALERT" m (by decide),
   matchesAmended_msg t f "Completed : ALERT" m (by decide)⟩

/-- C9 counterexample: in `Alert`, the message composition happens before
the global lock is acquired, so the alert write path does not execute
entirely under the lock as claimed. -/
theorem alert_compose_not_under_lock :
    composesUnderLock (Alert "s" "a" "b" "m") = false := rfl

/-- C9 amended: every sink write of every public logging call executes
while holding the single global serialization lock, and the lock is always
released again (which is what makes concurrent lines non-interleaved); the
non-alert calls also compose their message under the lock, but the four
alert calls compose the alert message BEFORE acquiring the lock and hand
it to the mail capability AFTER releasing it. -/
theorem serialized_writer_lock_discipline (cd : Nat) (subject t f m err : String) :
    (allLogTraces cd subject t f m err).all lockDiscipline = true
    ∧ (nonAlertLogTraces cd t f m err).all composesUnderLock = true
    ∧ (alertLogTraces cd subject t f m).all
        (fun tr => !composesUnderLock tr && !handoffsUnderLock tr) = true :=
  ⟨rfl, rfl, rfl⟩

end Tracelog
